import Mathlib

/-!
Verification of the scan-orchestration core of `rtlsdr-wwb-scanner`
(`wwb_scanner/scanner/main.py`, `wwb_scanner/scanner/sample_processing.py`,
`wwb_scanner/scanner/config.py`), shallowly embedded in Lean.

Frequencies and other real-valued quantities from the Python code are
modelled as rationals (`ℚ`); the algorithms under scrutiny are grid
arithmetic, slicing, sorting and control flow, none of which depends on
floating-point rounding.  Machine arrays become lists; `None` becomes
`Option`; a raised exception becomes an explicit error value or Boolean.
-/

namespace WWB

/-- Python's float modulo `x % d` for a positive divisor `d`:
`x - d * ⌊x / d⌋` (the result has the sign of `d`). -/
def pymod (x d : ℚ) : ℚ := x - d * (⌊x / d⌋ : ℤ)

/-- The 1/16 MHz frequency grid step (`step_divisor = 1 / 16.` in
`ScannerBase.calc_next_center_freq`, main.py line 71). -/
def gridStep : ℚ := 1 / 16

/-- `ScannerBase.calc_next_center_freq` (main.py lines 69-79), as a function
of the minimum and maximum of the sample set's frequency axis (MHz):
truncate `fmax` to the grid with `%`, add half the resulting span, truncate
again, and back off one grid step. -/
def calc_next_center_freq (fmin fmax : ℚ) : ℚ :=
  let fmax' := fmax - pymod fmax gridStep
  let fsize := fmax' - fmin
  let fc := fmax' + fsize / 2
  let fc' := fc - pymod fc gridStep
  fc' - gridStep

/-- Truncation of `x` downward to the 1/16 MHz grid, written the way the
spec words it ("truncate downward to the grid"): `⌊16 x⌋ / 16`.  Used to
state the spec-side formula that `calc_next_center_freq` must match. -/
def gridFloor (x : ℚ) : ℚ := (⌊x * 16⌋ : ℤ) / 16

/-- The spec's description of the next-center computation (spec §4.1):
truncate `f_hi` downward to the grid, take `span = truncated_f_hi - f_lo`,
form `candidate = truncated_f_hi + span / 2`, truncate downward again, and
subtract one grid step. -/
def spec_next_center_freq (fLo fHi : ℚ) : ℚ :=
  gridFloor (gridFloor fHi + (gridFloor fHi - fLo) / 2) - 1 / 16

/-- `ScannerBase.build_sample_sets` (main.py lines 80-85): starting from the
configured start frequency, create one sample set per candidate while the
candidate is `≤ end_freq`, stepping with `calc_next_center_freq` (abstracted
here as `next`, since the source derives it from the freshly built sample
set's expected frequency axis).  Fuel bounds the unboundedly-recursive
Python `while` loop; the returned list holds the candidate center
frequencies (MHz) for which a `SampleSet` was created, in creation order. -/
def build_sample_sets (next : ℚ → ℚ) : ℕ → ℚ → ℚ → List ℚ
  | 0, _, _ => []
  | fuel + 1, freq, endFreq =>
    if freq ≤ endFreq then freq :: build_sample_sets next fuel (next freq) endFreq
    else []

theorem pymod_self_sub (x : ℚ) : x - pymod x gridStep = gridFloor x := by
  unfold pymod gridFloor gridStep
  have h : x / (1 / 16 : ℚ) = x * 16 := by
    rw [div_div_eq_mul_div, div_one]
  rw [h]
  ring

theorem build_sample_sets_eq_takeWhile (next : ℚ → ℚ) (fuel : ℕ) (f0 endF : ℚ) :
    build_sample_sets next fuel f0 endF =
      ((List.range fuel).map (fun i => next^[i] f0)).takeWhile
        (fun c => decide (c ≤ endF)) := by
  induction fuel generalizing f0 with
  | zero => simp [build_sample_sets]
  | succ n ih =>
    have hmap : ((List.range (n + 1)).map (fun i => next^[i] f0)) =
        f0 :: (List.range n).map (fun i => next^[i] (next f0)) := by
      rw [List.range_succ_eq_map, List.map_cons, List.map_map]
      simp only [Function.iterate_zero, id_eq]
      congr 1
    rw [hmap]
    by_cases h : f0 ≤ endF
    · rw [build_sample_sets, if_pos h, ih, List.takeWhile_cons]
      simp [h]
    · rw [build_sample_sets, if_neg h, List.takeWhile_cons]
      simp [h]

/-- C1: `calc_next_center_freq` computes exactly the spec's formula —
truncate `f_hi` downward to the 1/16 MHz grid, add half the span
`truncated_f_hi - f_lo`, truncate downward again, subtract one grid
step — and `build_sample_sets` creates one sample set per candidate,
iterating the next-center map exactly while the candidate is `≤ f_end`. -/
theorem c1_scheduler_next_center_and_build :
    (∀ fLo fHi : ℚ, calc_next_center_freq fLo fHi = spec_next_center_freq fLo fHi) ∧
    (∀ (next : ℚ → ℚ) (fuel : ℕ) (f0 fEnd : ℚ),
      build_sample_sets next fuel f0 fEnd =
        ((List.range fuel).map (fun i => next^[i] f0)).takeWhile
          (fun c => decide (c ≤ fEnd))) := by
  constructor
  · intro fLo fHi
    unfold calc_next_center_freq spec_next_center_freq
    simp only [pymod_self_sub]
    norm_num [gridStep]
  · exact build_sample_sets_eq_takeWhile

/-- Python's `int()` applied to a rational: truncation toward zero
(`Int.div` on the normalized numerator and denominator). -/
def pyint (q : ℚ) : ℤ := q.num.tdiv q.den

/-- `np.fft.fftfreq n` with sample spacing `d = 1/fs`: the (unsorted)
two-sided DFT sample frequencies `0, fs/n, …` then the negative half,
exactly the axis scipy's `welch` returns for complex input. -/
def fftfreq (n : ℕ) (fs : ℚ) : List ℚ :=
  (List.range n).map
    (fun k => if k < (n + 1) / 2 then fs * k / n else fs * ((k : ℚ) - n) / n)

/-- `sort_psd` (sample_processing.py lines 23-32): sort the
(frequency, power) pairs ascending by frequency (`np.argsort`); with
`onesided` set, additionally drop everything below frequency zero
(`np.searchsorted(f, 0)`) and double the remaining powers.  Both call
sites in the scanner pass `onesided=False`.  Power values are carried as
rationals standing in for the float/complex scalars, which the claims
never inspect. -/
def sort_psd (f : List ℚ) (Pxx : List ℚ) (onesided : Bool) : List ℚ × List ℚ :=
  let pairs := List.insertionSort (fun a b => a.1 ≤ b.1) (f.zip Pxx)
  let f' := pairs.map Prod.fst
  let P' := pairs.map Prod.snd
  if onesided then
    let i := f'.findIdx (fun x => decide ((0 : ℚ) ≤ x))
    (f'.drop i, (P'.drop i).map (fun p => p * 2))
  else (f', P')

/-- The Python slice `xs[c : -c]` for a nonnegative `c`: for `c = 0` the
stop index is `0`, so the slice is empty; otherwise it keeps the indices
from `c` up to `len - c - 1`. -/
def pyCropSym (xs : List ℚ) (c : ℕ) : List ℚ :=
  if c = 0 then [] else (xs.take (xs.length - c)).drop c

/-- The crop count `int((f.size * overlap_ratio) / 2)` (sample_processing.py
lines 137 and 155). -/
def cropAmount (n : ℕ) (r : ℚ) : ℕ := (pyint ((n * r) / 2)).toNat

/-- The overlap-crop step shared by `SampleSet.process_samples`
(lines 136-138) and `SampleSet.calc_expected_freqs` (lines 155-156):
compute `crop` from the frequency array's size and slice both arrays with
`[crop : -crop]`. -/
def crop_step (f Pxx : List ℚ) (r : ℚ) : List ℚ × List ℚ :=
  let c := cropAmount f.length r
  (pyCropSym f c, pyCropSym Pxx c)

/-- `SampleSet.calc_expected_freqs` (sample_processing.py lines 146-159):
run `welch` on an all-zero buffer of `samples_per_sweep * sweeps_per_scan`
samples with `nperseg = 256` (scipy shrinks `nperseg` to the input length
when the input is shorter), whose output is the two-sided `fftfreq` axis
and an all-zero PSD; sort, crop, shift by the center frequency and
convert Hz to MHz. -/
def calc_expected_freqs (fc rs r : ℚ) (numSamples : ℕ) : List ℚ :=
  let nps := min 256 numSamples
  let f := fftfreq nps rs
  let Pxx : List ℚ := List.replicate nps 0
  let sorted := sort_psd f Pxx false
  let cropped := crop_step sorted.1 sorted.2 r
  cropped.1.map (fun x => (x + fc) / 1000000)

/-- `SampleSet.process_samples` (sample_processing.py lines 121-145).
The numeric kernels that only produce or transform power values are
abstracted: `psdVals` is the PSD array `welch` returns for the
translated samples (its frequency axis is the deterministic
`fftfreq nps rs`), and `roundtrip` is the
`np.fft.ifft` → `translate_freq(·, fc)` → `np.fft.fft` round trip of
lines 132-134, which numpy documents as length-preserving.  The result is
the pair (frequency axis, power array) stored on the sample set: both are
sorted together, cropped together with `crop_step`, the axis is shifted
by `fc` and converted to MHz, and the axis is only written back when it
differs from the lazily computed `self.frequencies`
(`np.array_equal` check on lines 142-144). -/
def process_samples (oldFreqs : Option (List ℚ)) (fc rs r : ℚ) (numSamples : ℕ)
    (psdVals : List ℚ) (roundtrip : List ℚ → List ℚ) : List ℚ × List ℚ :=
  let nps := min 256 numSamples
  let f := fftfreq nps rs
  let powers := roundtrip psdVals
  let sorted := sort_psd f powers false
  let cropped := crop_step sorted.1 sorted.2 r
  let fOut := cropped.1.map (fun x => (x + fc) / 1000000)
  let pOut := cropped.2
  let freqsProp := oldFreqs.getD (calc_expected_freqs fc rs r numSamples)
  if fOut = freqsProp then (freqsProp, pOut) else (fOut, pOut)

theorem pyint_eq_floor (q : ℚ) (h : 0 ≤ q) : pyint q = ⌊q⌋ := by
  unfold pyint
  rw [Rat.floor_def]
  exact Int.tdiv_eq_ediv (Rat.num_nonneg.2 h) (Int.natCast_nonneg _)

theorem fftfreq_length (n : ℕ) (fs : ℚ) : (fftfreq n fs).length = n := by
  simp [fftfreq]

theorem sort_psd_length_fst (f P : List ℚ) :
    ((sort_psd f P false).1).length = min f.length P.length := by
  simp only [sort_psd, if_neg Bool.false_ne_true, List.length_map]
  rw [(List.perm_insertionSort _ _).length_eq, List.length_zip]

theorem sort_psd_length_eq (f P : List ℚ) :
    ((sort_psd f P false).1).length = ((sort_psd f P false).2).length := by
  simp [sort_psd]

theorem pyCropSym_length (xs : List ℚ) (c : ℕ) :
    (pyCropSym xs c).length = if c = 0 then 0 else xs.length - 2 * c := by
  unfold pyCropSym
  by_cases h : c = 0
  · simp [h]
  · simp only [if_neg h, List.length_drop, List.length_take]
    omega

theorem crop_step_length_eq (f P : List ℚ) (r : ℚ) (h : f.length = P.length) :
    ((crop_step f P r).1).length = ((crop_step f P r).2).length := by
  simp only [crop_step, pyCropSym_length, h]

theorem cropAmount_zero (n : ℕ) : cropAmount n 0 = 0 := by
  unfold cropAmount pyint
  norm_num

theorem calc_expected_freqs_zero_ratio (fc rs : ℚ) (ns : ℕ) :
    calc_expected_freqs fc rs 0 ns = [] := by
  simp only [calc_expected_freqs, crop_step]
  rw [cropAmount_zero]
  simp [pyCropSym]

/-- C2 counterexample: with overlap ratio `r = 0` the crop count is `0`,
so the claim says all bins survive; but the Python slice `f[0 : -0]` is
`f[0 : 0]`, the empty slice.  With the default configuration
(`sample_rate = 2.048e6`, `20 × 8192` samples, center 400 MHz) the sorted
axis entering the crop has 256 bins, yet `calc_expected_freqs` returns an
empty axis. -/
theorem c2_crop_zero_counterexample :
    calc_expected_freqs 400000000 2048000 0 163840 = [] ∧
    cropAmount 256 0 = 0 ∧
    ((sort_psd (fftfreq (min 256 163840) 2048000)
        (List.replicate (min 256 163840) 0) false).1).length = 256 := by
  refine ⟨calc_expected_freqs_zero_ratio _ _ _, cropAmount_zero 256, ?_⟩
  rw [sort_psd_length_fst, fftfreq_length, List.length_replicate]
  norm_num

/-- C2 amended: the crop step removes `floor(n·r/2)` bins from each end
and leaves the middle `n - 2·floor(n·r/2)` bins of each array only when
`floor(n·r/2) ≥ 1`; when `floor(n·r/2) = 0` (e.g. overlap ratio `0`) the
slice `[0 : -0]` is empty instead of full.  The crop count is computed
from the frequency array's size and applied to both arrays, in
`process_samples` and `calc_expected_freqs` alike (both go through
`crop_step`). -/
theorem c2_crop_margins_amended (f P : List ℚ) (r : ℚ)
    (h : 1 ≤ cropAmount f.length r) :
    (crop_step f P r).1 =
      (f.drop (cropAmount f.length r)).take (f.length - 2 * cropAmount f.length r) ∧
    (crop_step f P r).2 =
      (P.drop (cropAmount f.length r)).take (P.length - 2 * cropAmount f.length r) ∧
    ((crop_step f P r).1).length = f.length - 2 * cropAmount f.length r ∧
    ((crop_step f P r).2).length = P.length - 2 * cropAmount f.length r ∧
    (0 ≤ r → (cropAmount f.length r : ℤ) = ⌊((f.length : ℚ) * r) / 2⌋) := by
  have hc : cropAmount f.length r ≠ 0 := by omega
  have hslice : ∀ xs : List ℚ, pyCropSym xs (cropAmount f.length r) =
      (xs.drop (cropAmount f.length r)).take (xs.length - 2 * cropAmount f.length r) := by
    intro xs
    unfold pyCropSym
    rw [if_neg hc, List.drop_take]
    congr 1
    omega
  refine ⟨hslice f, hslice P, ?_, ?_, ?_⟩
  · simp only [crop_step, pyCropSym_length, if_neg hc]
  · simp only [crop_step, pyCropSym_length, if_neg hc]
  · intro hr
    have hq : (0 : ℚ) ≤ ((f.length : ℚ) * r) / 2 := by positivity
    have := pyint_eq_floor _ hq
    unfold cropAmount
    rw [this, Int.toNat_of_nonneg (Int.le_floor.2 (by simpa using hq))]

/-- C2 amended witness: a 4-bin axis with overlap ratio 1/2 has crop
count 1 and keeps the middle two bins of each array. -/
theorem c2_crop_margins_amended_witness :
    (crop_step [1, 2, 3, 4] [5, 6, 7, 8] (1/2)).1 =
      (([1, 2, 3, 4] : List ℚ).drop (cropAmount 4 (1/2))).take (4 - 2 * cropAmount 4 (1/2)) ∧
    (crop_step [1, 2, 3, 4] [5, 6, 7, 8] (1/2)).2 =
      (([5, 6, 7, 8] : List ℚ).drop (cropAmount 4 (1/2))).take (4 - 2 * cropAmount 4 (1/2)) ∧
    ((crop_step [1, 2, 3, 4] [5, 6, 7, 8] (1/2)).1).length = 4 - 2 * cropAmount 4 (1/2) ∧
    ((crop_step [1, 2, 3, 4] [5, 6, 7, 8] (1/2)).2).length = 4 - 2 * cropAmount 4 (1/2) ∧
    (0 ≤ (1/2 : ℚ) → (cropAmount 4 (1/2) : ℤ) = ⌊((4 : ℚ) * (1/2)) / 2⌋) := by
  have h4 : ([1, 2, 3, 4] : List ℚ).length = 4 := by simp
  have h := c2_crop_margins_amended [1, 2, 3, 4] [5, 6, 7, 8] (1/2) (by
    rw [h4]
    unfold cropAmount pyint
    norm_num)
  rw [h4] at h
  simpa using h

/-- C5: after `process_samples` completes, the stored frequency axis and
the stored power array have the same length, for any prior lazy axis, any
PSD values `welch` may produce (scipy's contract: one value per
`fftfreq` bin) and any length-preserving fft/translate round trip. -/
theorem c5_axis_power_length_invariant (oldFreqs : Option (List ℚ)) (fc rs r : ℚ)
    (numSamples : ℕ) (psdVals : List ℚ) (roundtrip : List ℚ → List ℚ)
    (hrt : (roundtrip psdVals).length = psdVals.length)
    (hpsd : psdVals.length = min 256 numSamples) :
    (process_samples oldFreqs fc rs r numSamples psdVals roundtrip).1.length =
      (process_samples oldFreqs fc rs r numSamples psdVals roundtrip).2.length := by
  simp only [process_samples]
  have hsort := sort_psd_length_eq (fftfreq (min 256 numSamples) rs) (roundtrip psdVals)
  have hcrop := crop_step_length_eq
    (sort_psd (fftfreq (min 256 numSamples) rs) (roundtrip psdVals) false).1
    (sort_psd (fftfreq (min 256 numSamples) rs) (roundtrip psdVals) false).2 r hsort
  split
  · next heq =>
      rw [← heq]
      simpa using hcrop
  · next =>
      simpa using hcrop

/-- C5 witness at a concrete input: the default configuration with a flat
(all-zero) PSD and the identity round trip. -/
theorem c5_axis_power_length_invariant_witness :
    (process_samples none 400000000 2048000 (1/2) 163840
        (List.replicate 256 0) id).1.length =
      (process_samples none 400000000 2048000 (1/2) 163840
        (List.replicate 256 0) id).2.length :=
  c5_axis_power_length_invariant none 400000000 2048000 (1/2) 163840
    (List.replicate 256 0) id (by rw [id_eq])
    (by rw [List.length_replicate]; norm_num)

/-- The observable state of one `SampleSet` during asynchronous
acquisition (sample_processing.py lines 59-89).  `currentSweep` mirrors
the `current_sweep` slot, which starts out unset (`None`); `rows` is
`raw.shape[0] = sweeps_per_scan`; `rowsWritten` counts how many raw rows
hold delivered IQ data; `asyncCanceling` mirrors
`sdr.read_async_canceling`; `cancelCalls` counts `cancel_read_async`
invocations; `processed` records whether final processing
(`process_samples`) has run; `readsStarted` counts `read_samples`
invocations (re-acquisition attempts). -/
structure SampleSetState where
  currentSweep : Option ℕ
  rows : ℕ
  rowsWritten : ℕ
  asyncCanceling : Bool
  cancelCalls : ℕ
  processed : Bool
  readsStarted : ℕ
  deriving DecidableEq

/-- `SampleSet.read_samples` (lines 59-68): tune, zero the raw and power
buffers, and start one asynchronous read; it never touches
`current_sweep`. -/
def read_samples (s : SampleSetState) : SampleSetState :=
  { s with rowsWritten := 0, asyncCanceling := false,
           readsStarted := s.readsStarted + 1 }

/-- `SampleSet.on_sample_read_complete` (lines 85-89): cancel the
asynchronous read unless cancellation is already in flight, then run
final processing. -/
def on_sample_read_complete (s : SampleSetState) : SampleSetState :=
  let s' := if s.asyncCanceling then s
            else { s with asyncCanceling := true, cancelCalls := s.cancelCalls + 1 }
  { s' with processed := true }

/-- `SampleSet.samples_callback` (lines 69-84), one sweep delivery.
`fail` models an exception raised inside the `try` block (while writing
the sweep row or running the per-sweep preview `process_sweep`); the
returned Boolean is whether the callback re-raises to its caller.  Note
the source's final check compares the stale pre-increment local
`current_sweep` against `raw.shape[0]` with a strict `>`. -/
def samples_callback (fail : Bool) (s : SampleSetState) : SampleSetState × Bool :=
  let cs := s.currentSweep.getD 0
  let s0 := { s with currentSweep := some cs }
  if cs ≥ s0.rows then (on_sample_read_complete s0, false)
  else if fail then (on_sample_read_complete s0, true)
  else
    let s1 := { s0 with rowsWritten := max s0.rowsWritten (cs + 1),
                        currentSweep := some (cs + 1) }
    if cs > s1.rows then (on_sample_read_complete s1, false) else (s1, false)

/-- The state of a fresh `SampleSet` with `sweeps_per_scan = k` after
`read_samples`: unset sweep counter, `k` rows, nothing processed. -/
def initSampleSet (k : ℕ) : SampleSetState :=
  { currentSweep := none, rows := k, rowsWritten := 0, asyncCanceling := false,
    cancelCalls := 0, processed := false, readsStarted := 1 }

/-- The state after `m` successful sweep callback deliveries. -/
def callbackIter (k m : ℕ) : SampleSetState :=
  (fun s => (samples_callback false s).1)^[m] (initSampleSet k)

theorem callbackIter_succ (k m : ℕ) :
    callbackIter k (m + 1) = (samples_callback false (callbackIter k m)).1 := by
  simp only [callbackIter, Function.iterate_succ_apply']

theorem callbackIter_formula (k : ℕ) : ∀ m : ℕ, 1 ≤ m → m ≤ k →
    callbackIter k m =
      { currentSweep := some m, rows := k, rowsWritten := m,
        asyncCanceling := false, cancelCalls := 0, processed := false,
        readsStarted := 1 } := by
  intro m
  induction m with
  | zero => omega
  | succ n ih =>
    intro _ hle
    rw [callbackIter_succ]
    rcases Nat.eq_zero_or_pos n with hn | hn
    · subst hn
      have h0 : callbackIter k 0 = initSampleSet k := by
        simp [callbackIter]
      rw [h0]
      simp only [samples_callback, initSampleSet, Option.getD_none]
      have hk : ¬ (0 ≥ k) := by omega
      have hgt : ¬ (0 > k) := by omega
      simp [hk, hgt]
    · rw [ih hn (by omega)]
      simp only [samples_callback, Option.getD_some]
      have h1 : ¬ (n ≥ k) := by omega
      have h2 : ¬ (n > k) := by omega
      simp [h1, h2, Nat.max_eq_right (Nat.le_succ n)]

/-- C3 is a code bug: with `sweeps_per_scan = k ≥ 1`, after the `k`-th
sweep callback the counter has reached `k` but the read has *not* been
canceled and final processing has *not* run — the completion check
`if current_sweep > self.raw.shape[0]` tests the stale pre-increment
local with a strict `>`, so it never fires; only a further, (`k+1`)-th
callback delivery (whose IQ data is discarded) triggers cancellation
and processing, contradicting the spec's "once the sweep counter reaches
sweeps-per-scan, the state machine cancels the asynchronous read and
runs final processing". -/
theorem c3_completion_requires_extra_callback (k : ℕ) (hk : 1 ≤ k) :
    (callbackIter k k).processed = false ∧
    (callbackIter k k).cancelCalls = 0 ∧
    (callbackIter k k).currentSweep = some k ∧
    (callbackIter k (k + 1)).processed = true ∧
    (callbackIter k (k + 1)).cancelCalls = 1 := by
  have hk' := callbackIter_formula k k hk le_rfl
  have hstep : callbackIter k (k + 1) =
      (samples_callback false (callbackIter k k)).1 := by
    simp only [callbackIter, Function.iterate_succ_apply']
  rw [hstep, hk']
  refine ⟨rfl, rfl, rfl, ?_, ?_⟩ <;>
    simp [samples_callback, on_sample_read_complete]

/-- C3 witness: the concrete failing input `sweeps_per_scan = 1`; the
first callback does not complete the window, the second does. -/
theorem c3_completion_requires_extra_callback_witness :
    (callbackIter 1 1).processed = false ∧
    (callbackIter 1 1).cancelCalls = 0 ∧
    (callbackIter 1 1).currentSweep = some 1 ∧
    (callbackIter 1 2).processed = true ∧
    (callbackIter 1 2).cancelCalls = 1 :=
  c3_completion_requires_extra_callback 1 le_rfl

/-- C4: if an error is raised while handling a sweep callback (writing
the sweep row or the per-sweep preview — only reachable while the sweep
counter is below `sweeps_per_scan`), the callback cancels the pending
asynchronous read (unless cancellation was already in flight), re-raises
the error to the caller, and starts no new acquisition (`read_samples`
is never re-invoked: a failed window is abandoned, not retried). -/
theorem c4_error_cancels_and_reraises (s : SampleSetState)
    (h : s.currentSweep.getD 0 < s.rows) :
    (samples_callback true s).2 = true ∧
    (samples_callback true s).1.asyncCanceling = true ∧
    (samples_callback true s).1.readsStarted = s.readsStarted := by
  have hge : ¬ (s.currentSweep.getD 0 ≥ s.rows) := by omega
  simp only [samples_callback, if_neg hge, if_pos rfl, on_sample_read_complete]
  by_cases hc : s.asyncCanceling <;> simp [hc]

/-- C4 witness: a fresh two-sweep sample set failing on its first
callback. -/
theorem c4_error_cancels_and_reraises_witness :
    (samples_callback true (initSampleSet 2)).2 = true ∧
    (samples_callback true (initSampleSet 2)).1.asyncCanceling = true ∧
    (samples_callback true (initSampleSet 2)).1.readsStarted =
      (initSampleSet 2).readsStarted :=
  c4_error_cancels_and_reraises (initSampleSet 2) (by simp [initSampleSet])

/-- The loop body of `SampleCollection.scan_all_freqs`
(sample_processing.py lines 191-195): walk the sorted keys; before each
window, test the `scanning` flag and `break` if it has been cleared,
otherwise acquire that window.  `flag i` is the value
`scanning.is_set()` observed at the `i`-th check (the flag is cleared
externally by `stop`/`cancel`); the result lists the center frequencies
whose windows were acquired. -/
def scanLoop (flag : ℕ → Bool) : List ℚ → ℕ → List ℚ
  | [], _ => []
  | key :: keys, i =>
    if flag i then key :: scanLoop flag keys (i + 1) else []

/-- The outcome of `SampleCollection.scan_all_freqs` (lines 189-197):
`sorted(self.sample_sets.keys())` gives ascending order (Python's
`sorted`, modelled by insertion sort — the keys of the dict are
distinct); on exit, the loop body having run, `scanning` is cleared and
`stopped` is set on every path. -/
structure ScanAllResult where
  acquired : List ℚ
  scanning : Bool
  stoppedSignal : Bool
  deriving DecidableEq

/-- `SampleCollection.scan_all_freqs` itself. -/
def scan_all_freqs (keys : List ℚ) (flag : ℕ → Bool) : ScanAllResult :=
  { acquired := scanLoop flag (List.insertionSort (· ≤ ·) keys) 0,
    scanning := false, stoppedSignal := true }

theorem scanLoop_characterization (flag : ℕ → Bool) :
    ∀ (l : List ℚ) (i : ℕ), ∃ m, m ≤ l.length ∧
      scanLoop flag l i = l.take m ∧
      (∀ j, j < m → flag (i + j) = true) ∧
      (m < l.length → flag (i + m) = false) := by
  intro l
  induction l with
  | nil =>
    intro i
    exact ⟨0, by simp [scanLoop]⟩
  | cons key keys ih =>
    intro i
    by_cases h : flag i
    · obtain ⟨m, hm, heq, hall, hstop⟩ := ih (i + 1)
      refine ⟨m + 1, by simpa using hm, ?_, ?_, ?_⟩
      · simp [scanLoop, h, heq]
      · intro j hj
        cases j with
        | zero => simpa using h
        | succ j' =>
          have := hall j' (by omega)
          rw [show i + (j' + 1) = i + 1 + j' by omega]
          exact this
      · intro hlt
        have := hstop (by simpa using hlt)
        rw [show i + (m + 1) = i + 1 + m by omega]
        exact this
    · refine ⟨0, by simp, by simp [scanLoop, h], by omega, ?_⟩
      intro _
      simpa using h

/-- C7: `scan_all_freqs` visits the scheduled center frequencies in
ascending order — the acquired windows are an initial run `take m` of
the ascending-sorted key list; the flag was checked (and found set)
before every acquired window, and the loop stopped at the first check
that found the flag cleared, so cancellation takes effect exactly at a
window boundary; and on exit the scanning flag is cleared and the
stopped signal set. -/
theorem c7_scan_all_freqs_ascending_flagged (keys : List ℚ) (flag : ℕ → Bool) :
    List.Sorted (· ≤ ·) (scan_all_freqs keys flag).acquired ∧
    (∃ m, m ≤ keys.length ∧
      (scan_all_freqs keys flag).acquired =
        (List.insertionSort (· ≤ ·) keys).take m ∧
      (∀ j, j < m → flag j = true) ∧
      (m < keys.length → flag m = false)) ∧
    (scan_all_freqs keys flag).scanning = false ∧
    (scan_all_freqs keys flag).stoppedSignal = true := by
  obtain ⟨m, hm, heq, hall, hstop⟩ :=
    scanLoop_characterization flag (List.insertionSort (· ≤ ·) keys) 0
  have hlen : (List.insertionSort (· ≤ ·) keys).length = keys.length :=
    (List.perm_insertionSort _ _).length_eq
  refine ⟨?_, ⟨m, by omega, ?_, ?_, ?_⟩, rfl, rfl⟩
  · show List.Sorted (· ≤ ·) (scanLoop flag (List.insertionSort (· ≤ ·) keys) 0)
    rw [heq]
    exact (List.sorted_insertionSort _ keys).sublist (List.take_sublist _ _)
  · exact heq
  · intro j hj
    simpa using hall j hj
  · intro hlt
    simpa using hstop (by omega)

/-- The run-state of a `SampleCollection` seen by `stop` and `cancel`
(sample_processing.py lines 171-205): the `scanning` event and whether
the caller then blocks on the `stopped` event. -/
structure CollectionState where
  scanning : Bool
  deriving DecidableEq

/-- `SampleCollection.stop` (lines 198-201): if the scanning flag is
set, clear it and wait for the stopped event.  Returns the new state and
whether the call blocks on `stopped.wait()`. -/
def SampleCollection.stop (s : CollectionState) : CollectionState × Bool :=
  if s.scanning then ({ scanning := false }, true) else (s, false)

/-- `SampleCollection.cancel` (lines 202-205): textually the same body
as `stop`. -/
def SampleCollection.cancel (s : CollectionState) : CollectionState × Bool :=
  if s.scanning then ({ scanning := false }, true) else (s, false)

/-- C10: `stop` and `cancel` are extensionally equal — identical state
transition and identical blocking behavior on every collection state;
both leave the scanning flag cleared, and both block on the stopped
signal exactly when the flag was set. -/
theorem c10_stop_cancel_equal :
    (∀ s, SampleCollection.stop s = SampleCollection.cancel s) ∧
    (∀ s, (SampleCollection.stop s).1.scanning = false ∧
      (SampleCollection.stop s).2 = s.scanning) := by
  constructor
  · intro s
    rfl
  · intro s
    unfold SampleCollection.stop
    by_cases h : s.scanning
    · simp [h]
    · simp only [Bool.not_eq_true] at h
      simp [h]

/-- `Scanner.get_nearest_gain` (main.py lines 197-202): with no gain
table (`gains is None`) the requested gain is returned unchanged;
otherwise the entry of the table closest to the request is returned
(`np.abs(npgains - gain).argmin()`, first minimizer; numpy raises on an
empty table, modelled here by falling back to the request — the scanner
only reaches that branch with a table the driver actually reported). -/
def argminAbsDist (gs : List ℚ) (g : ℚ) : ℕ :=
  match gs with
  | [] => 0
  | g0 :: rest =>
    (((rest.enum.map (fun p => (p.1 + 1, p.2))).foldl
      (fun best p => if |p.2 - g| < |best.2 - g| then p else best) (0, g0))).1

/-- `Scanner.get_nearest_gain` itself. -/
def get_nearest_gain (gains : Option (List ℚ)) (g : ℚ) : ℚ :=
  match gains with
  | none => g
  | some gs => (gs.get? (argminAbsDist gs g)).getD g

/-- The `Scanner.gain` setter (main.py lines 174-178): a non-`None`
value is snapped through `get_nearest_gain` when the sdr wrapper exists,
then stored into `device_config.gain` unconditionally. -/
def gain_setter (gains : Option (List ℚ)) (hasWrapper : Bool)
    (value : Option ℚ) : Option ℚ :=
  match value with
  | none => none
  | some v => if hasWrapper then some (get_nearest_gain gains v) else some v

/-- C9 counterexample: with the driver reporting no gain table
(`gains = none`), assigning gain 30 stores 30 into the device
configuration — the gain does not stay unset. -/
theorem c9_gain_stored_counterexample :
    gain_setter none true (some 30) = some 30 ∧
    gain_setter none true (some 30) ≠ none := by
  constructor
  · rfl
  · intro h
    simp [gain_setter, get_nearest_gain] at h

/-- C9 amended: when the gain table is absent (`none`),
`get_nearest_gain` returns the requested value unchanged and the gain
setter stores exactly the requested value into the device configuration
(no snapping, but also not left unset); assigning `None` stores `None`. -/
theorem c9_gain_passthrough_amended :
    (∀ g : ℚ, get_nearest_gain none g = g) ∧
    (∀ (hw : Bool) (v : ℚ), gain_setter none hw (some v) = some v) ∧
    (∀ (gains : Option (List ℚ)) (hw : Bool), gain_setter gains hw none = none) := by
  refine ⟨fun g => rfl, ?_, fun gains hw => rfl⟩
  intro hw v
  cases hw <;> rfl

/-- Python-level errors the scan-parameter code can raise.  No
`ConfigurationError` class exists anywhere in the scanner sources; the
constructor is included only so its absence from every reachable result
is expressible. -/
inductive PyError where
  | zeroDivision
  | configurationError
  deriving DecidableEq

/-- The scan-parameter state of a `ScannerBase`. -/
structure ScannerState where
  scanRange : ℚ × ℚ
  currentFreq : Option ℚ
  progress : ℚ
  deriving DecidableEq

/-- `ScannerBase.__init__` (main.py lines 26-45) as far as scan
parameters are concerned: it stores the configuration and builds the
sub-objects, performing no validation whatsoever of the scan range — a
zero-width range is accepted without any error. -/
def scanner_init (scanRange : ℚ × ℚ) : Except PyError ScannerState :=
  .ok { scanRange := scanRange, currentFreq := none, progress := 0 }

/-- The `current_freq` setter (main.py lines 49-55): a non-`None` value
updates `progress = (value - f_min) / (f_max - f_min)`; Python raises
`ZeroDivisionError` when `f_max = f_min`.  The setter is invoked with
the tuned frequency while a scan is running (by the sdr wrapper, which
is outside the scanner sources; the spec says the session "tracks
current tuned frequency" during the run). -/
def set_current_freq (s : ScannerState) (v : Option ℚ) : Except PyError ScannerState :=
  match v with
  | none => .ok { s with currentFreq := none }
  | some f =>
    if s.scanRange.2 - s.scanRange.1 = 0 then .error .zeroDivision
    else .ok { s with currentFreq := some f,
                      progress := (f - s.scanRange.1) / (s.scanRange.2 - s.scanRange.1) }

/-- C8 counterexample: constructing a scanner with the zero-length scan
range `[400, 400]` MHz succeeds — no `ConfigurationError` (or any other
error) is raised at session construction; instead, the first assignment
of a tuned frequency divides by the zero-width range and raises
`ZeroDivisionError`. -/
theorem c8_no_validation_counterexample :
    scanner_init (400, 400) =
      .ok { scanRange := (400, 400), currentFreq := none, progress := 0 } ∧
    set_current_freq { scanRange := (400, 400), currentFreq := none, progress := 0 }
      (some 400) = .error .zeroDivision := by
  refine ⟨rfl, ?_⟩
  simp [set_current_freq]

/-- C8 amended: the code performs no validation of the scan range —
construction succeeds for every range, including zero-length ones — and
with a zero-width range the `current_freq` setter raises a
`ZeroDivisionError` (not a `ConfigurationError`) the first time a tuned
frequency is assigned, which happens during the run, after hardware
access has begun. -/
theorem c8_zero_range_division_amended (range : ℚ × ℚ) (s : ScannerState) (v : ℚ)
    (h : s.scanRange.2 = s.scanRange.1) :
    scanner_init range =
      .ok { scanRange := range, currentFreq := none, progress := 0 } ∧
    set_current_freq s (some v) = .error .zeroDivision := by
  refine ⟨rfl, ?_⟩
  simp [set_current_freq, h]

/-- C8 amended witness: the zero-width range `[400, 400]`. -/
theorem c8_zero_range_division_amended_witness :
    scanner_init (400, 900) =
      .ok { scanRange := (400, 900), currentFreq := none, progress := 0 } ∧
    set_current_freq { scanRange := (400, 400), currentFreq := none, progress := 0 }
      (some 400) = .error .zeroDivision :=
  c8_zero_range_division_amended (400, 900)
    { scanRange := (400, 400), currentFreq := none, progress := 0 } 400 rfl

/-- Shared state of the scan session while `ScannerBase.run_scan`
(main.py lines 86-95) runs concurrently with `ScannerBase.stop_scan`
(lines 96-99).  `running`/`scStopped` are the scanner's `_running` and
`_stopped` events, `scanning`/`collStopped` the collection's events;
`saves` counts `save_to_dbstore` invocations, `delivered` counts windows
delivered to the spectrum accumulator
(`on_sample_set_processed`); `pc1`/`pc2` are the program counters of the
`run_scan` and `stop_scan` threads; `t2Wait` records whether
`stop_scan`'s `cancel()` entered its waiting branch. -/
structure RunStopState where
  running : Bool
  scStopped : Bool
  scanning : Bool
  collStopped : Bool
  saves : ℕ
  delivered : ℕ
  pc1 : ℕ
  pc2 : ℕ
  t2Wait : Bool
  deriving DecidableEq

/-- One atomic step of the `run_scan` thread with `n` scheduled windows
(the collection's `scan_all_freqs` inlined at its call site):
pc 0 `running.set()`; pc 1 `scanning.set()`; pcs 2 … n+1 one loop
iteration each — the flag check plus, if the flag is set, the whole
(single-threaded, flag-free) acquisition and delivery of that window;
a cleared flag means `break`, modelled as the remaining iterations doing
nothing (nothing re-sets `scanning` after pc 1, so this is
observationally the `break`); pc n+2 `scanning.clear()`; pc n+3
`stopped.set()`; pc n+4 `stopped.wait()` (blocks until `collStopped`);
pc n+5 the check `if running.is_set(): save_to_dbstore()`; pc n+6
`running.clear()`; pc n+7 `_stopped.set()`; pc n+8 = finished.  A
blocked or finished thread stutters. -/
def stepRun (n : ℕ) (s : RunStopState) : RunStopState :=
  if s.pc1 = 0 then { s with running := true, pc1 := 1 }
  else if s.pc1 = 1 then { s with scanning := true, pc1 := 2 }
  else if s.pc1 < n + 2 then
    if s.scanning then { s with delivered := s.delivered + 1, pc1 := s.pc1 + 1 }
    else { s with pc1 := s.pc1 + 1 }
  else if s.pc1 = n + 2 then { s with scanning := false, pc1 := n + 3 }
  else if s.pc1 = n + 3 then { s with collStopped := true, pc1 := n + 4 }
  else if s.pc1 = n + 4 then
    if s.collStopped then { s with pc1 := n + 5 } else s
  else if s.pc1 = n + 5 then
    if s.running then { s with saves := s.saves + 1, pc1 := n + 6 }
    else { s with pc1 := n + 6 }
  else if s.pc1 = n + 6 then { s with running := false, pc1 := n + 7 }
  else if s.pc1 = n + 7 then { s with scStopped := true, pc1 := n + 8 }
  else s

/-- One atomic step of the `stop_scan` thread: pc 0 `_running.clear()`;
pc 1 the `cancel()` entry `if scanning.is_set(): scanning.clear()`
(remembering whether the waiting branch was taken); pc 2 the
`stopped.wait()` inside that branch (skipped when the branch was not
taken); pc 3 `_stopped.wait()`; pc 4 = finished. -/
def stepStop (s : RunStopState) : RunStopState :=
  if s.pc2 = 0 then { s with running := false, pc2 := 1 }
  else if s.pc2 = 1 then
    if s.scanning then { s with scanning := false, t2Wait := true, pc2 := 2 }
    else { s with t2Wait := false, pc2 := 2 }
  else if s.pc2 = 2 then
    if s.collStopped || !s.t2Wait then { s with pc2 := 3 } else s
  else if s.pc2 = 3 then
    if s.scStopped then { s with pc2 := 4 } else s
  else s

/-- Scheduler step: `t = false` runs the `run_scan` thread, `t = true`
the `stop_scan` thread. -/
def stepRS (n : ℕ) (t : Bool) (s : RunStopState) : RunStopState :=
  if t then stepStop s else stepRun n s

/-- Execute a whole interleaving. -/
def runSched (n : ℕ) (sched : List Bool) (s : RunStopState) : RunStopState :=
  sched.foldl (fun st t => stepRS n t st) s

/-- Both threads at their entry points, all events cleared. -/
def initRunStop : RunStopState :=
  { running := false, scStopped := false, scanning := false,
    collStopped := false, saves := 0, delivered := 0, pc1 := 0, pc2 := 0,
    t2Wait := false }

/-- C6 counterexample: with one scheduled window, run the `run_scan`
thread for 8 steps — through the save check (which sees the running flag
still set and persists, `saves = 1`) and `running.clear()`, but *not*
yet the final `_stopped.set()`, so `run_scan` has not finished
(`pc1 = 8 < 9`).  Now `stop_scan` is invoked and performs its first step
(`pc2 = 1`) — strictly before `run_scan` finishes — and `run_scan` then
completes.  The session executed the successful-completion persist path
(`saves = 1`) even though `stop_scan` was invoked before `run_scan`
finished, refuting the claim as stated. -/
theorem c6_save_despite_stop_counterexample :
    (runSched 1 (List.replicate 8 false) initRunStop).pc1 = 8 ∧
    (runSched 1 (List.replicate 8 false) initRunStop).saves = 1 ∧
    (runSched 1 (List.replicate 8 false ++ [true]) initRunStop).pc2 = 1 ∧
    (runSched 1 (List.replicate 8 false ++ [true]) initRunStop).pc1 = 8 ∧
    (runSched 1 (List.replicate 8 false ++ [true, false]) initRunStop).pc1 = 9 ∧
    (runSched 1 (List.replicate 8 false ++ [true, false]) initRunStop).saves = 1 ∧
    (runSched 1 (List.replicate 8 false ++ [true, false]) initRunStop).scStopped = true := by
  decide

set_option maxHeartbeats 1000000 in
theorem stepRS_preserves (n : ℕ) (t : Bool) (s : RunStopState)
    (hrun : s.running = false) (hpc1 : 1 ≤ s.pc1) (hsave : s.saves = 0)
    (hpc2 : 1 ≤ s.pc2) :
    (stepRS n t s).running = false ∧ 1 ≤ (stepRS n t s).pc1 ∧
    (stepRS n t s).saves = 0 ∧ 1 ≤ (stepRS n t s).pc2 ∧
    s.delivered ≤ (stepRS n t s).delivered := by
  cases t <;> simp only [stepRS, stepRun, stepStop, Bool.false_eq_true,
    if_false, if_true] <;> split_ifs <;> simp_all

/-- C6 amended: once `stop_scan` has performed its `_running.clear()`
*after* `run_scan` set the flag (`pc1 ≥ 1`) and while no save has
happened yet, no continuation of the two threads, under any
interleaving, ever executes the successful-completion persist path
(`save_to_dbstore` stays unreached: the flag-check at the end of
`run_scan` finds the running flag cleared); and every window already
delivered to the spectrum accumulator stays delivered.  The persist path
runs only when the running flag is still set at that final check. -/
theorem c6_no_save_after_clear_amended (n : ℕ) (sched : List Bool)
    (s : RunStopState) (hrun : s.running = false) (hpc1 : 1 ≤ s.pc1)
    (hsave : s.saves = 0) (hpc2 : 1 ≤ s.pc2) :
    (runSched n sched s).saves = 0 ∧
    s.delivered ≤ (runSched n sched s).delivered := by
  induction sched generalizing s with
  | nil => exact ⟨hsave, le_rfl⟩
  | cons t ts ih =>
    obtain ⟨h1, h2, h3, h4, h5⟩ := stepRS_preserves n t s hrun hpc1 hsave hpc2
    obtain ⟨ih1, ih2⟩ := ih (stepRS n t s) h1 h2 h3 h4
    exact ⟨ih1, le_trans h5 ih2⟩

/-- C6 amended witness: the `stop_scan` clear has just landed between
the windows of a two-window scan; the remaining schedule finishes both
threads and no save happens while the delivered window count is
retained. -/
theorem c6_no_save_after_clear_amended_witness :
    (runSched 2 (List.replicate 12 false ++ List.replicate 4 true)
      { running := false, scStopped := false, scanning := false,
        collStopped := false, saves := 0, delivered := 1, pc1 := 3,
        pc2 := 1, t2Wait := false }).saves = 0 ∧
    (1 : ℕ) ≤ (runSched 2 (List.replicate 12 false ++ List.replicate 4 true)
      { running := false, scStopped := false, scanning := false,
        collStopped := false, saves := 0, delivered := 1, pc1 := 3,
        pc2 := 1, t2Wait := false }).delivered :=
  c6_no_save_after_clear_amended 2 (List.replicate 12 false ++ List.replicate 4 true)
    { running := false, scStopped := false, scanning := false,
      collStopped := false, saves := 0, delivered := 1, pc1 := 3,
      pc2 := 1, t2Wait := false } rfl (by decide) rfl (by decide)

end WWB
